import Mathlib

/-!
Shallow embedding of the Teradata connection manager and PDCR report helpers
(`src/connection.py`, `src/reports.py`).

The connection manager keeps a cache of SQLAlchemy engines keyed by
environment name; the external effects (engine construction, the `SELECT 1`
liveness probe, engine disposal) are modelled by boolean oracles packaged in
a `World`, and each operation additionally returns the list of external
events it performed, so that claims about "how many pools were constructed"
or "which engines were disposed" can be stated precisely.
-/

namespace TD

/-- Association lookup, first match wins: models Python dict indexing and
`in` tests on the (insertion-ordered, duplicate-free) dicts used by the code. -/
def alookup (k : String) : List (String × α) → Option α
  | [] => none
  | (k', v) :: rest => if k' = k then some v else alookup k rest

/-- Python `repr` of a string, as it appears inside a formatted list. -/
def pyQuote (s : String) : String := "'" ++ s ++ "'"

/-- Comma-space join, as in Python list formatting. -/
def commaJoin : List String → String
  | [] => ""
  | [s] => s
  | s :: rest => s ++ ", " ++ commaJoin rest

/-- Python `str(list_of_strings)`, e.g. `['test', 'prod']`. -/
def pyReprList (names : List String) : String :=
  "[" ++ commaJoin (names.map pyQuote) ++ "]"

/-- An exception escaping the connection layer: either the module's own
`TeradataConnectionError` or an exception of the underlying driver
(propagated uncaught out of `close_all`). -/
inductive PyErr where
  | teradataConnectionError (msg : String)
  | externalError (msg : String)
deriving DecidableEq, Repr

/-- The human-readable message carried by an exception. -/
def PyErr.msg : PyErr → String
  | .teradataConnectionError m => m
  | .externalError m => m

/-- Message of `_load_config` when the YAML file is absent. -/
def configNotFoundMsg (path : String) : String :=
  "Configuration file not found: " ++ path ++
    "\nPlease create td_env.yaml from td_env.yaml.template"

/-- Message of `_load_config` on a YAML parse error. -/
def yamlParseMsg (e : String) : String :=
  "Error parsing YAML configuration: " ++ e

/-- Inner message of `_load_config` when the parsed value is not a dict. -/
def invalidFormatMsg (path : String) : String :=
  "Invalid configuration format in " ++ path

/-- The generic `except Exception` wrapper of `_load_config`. -/
def loadWrapMsg (e : String) : String :=
  "Error loading configuration: " ++ e

/-- Message of `_build_connection_string` for an unknown environment name. -/
def envNotFoundMsg (envName : String) (names : List String) : String :=
  "Environment " ++ pyQuote envName ++ " not found in configuration. Available: " ++
    pyReprList names

/-- Message of `_build_connection_string` for missing required parameters. -/
def missingParamsMsg (envName : String) (missing : List String) : String :=
  "Missing required parameters for " ++ pyQuote envName ++ ": " ++ pyReprList missing

/-- The wrapper message of `get_engine`. -/
def failedConnectMsg (envName : String) (inner : String) : String :=
  "Failed to connect to " ++ pyQuote envName ++ ": " ++ inner

/-- One configuration entry: a field-name/value dict. -/
abbrev CfgEntry := List (String × String)

/-- The loaded configuration: environment name to entry, in file order. -/
abbrev CfgMap := List (String × CfgEntry)

/-- What the external YAML source hands back to `_load_config`: the file may
be absent, `yaml.safe_load` may raise, or it may parse to a non-dict value or
to a dict of entries. -/
inductive ConfigSource where
  | missingFile
  | yamlError (emsg : String)
  | parsedNonMapping
  | parsedMapping (entries : CfgMap)
deriving DecidableEq, Repr

/-- `TeradataConnection._load_config`: checks existence, parses, and checks
the result is a dict. A `TeradataConnectionError` raised for a non-dict value
inside the `try` block is re-caught by the generic `except Exception` clause
and re-wrapped. No per-entry field validation happens here. -/
def load_config (path : String) (src : ConfigSource) : Except PyErr CfgMap :=
  match src with
  | .missingFile => .error (.teradataConnectionError (configNotFoundMsg path))
  | .yamlError e => .error (.teradataConnectionError (yamlParseMsg e))
  | .parsedNonMapping =>
      .error (.teradataConnectionError (loadWrapMsg (invalidFormatMsg path)))
  | .parsedMapping entries => .ok entries

/-- The required connection parameters, in the order the code lists them. -/
def requiredParams : List String := ["host", "username", "password", "database"]

/-- The fields of `requiredParams` absent from an entry, in order. -/
def missingParams (c : CfgEntry) : List String :=
  requiredParams.filter (fun p => (alookup p c).isNone)

/-- `TeradataConnection._build_connection_string`: resolves the environment,
checks required fields, and assembles the `teradatasql://` target string with
`LOGMECH` defaulting to `TD2` and `TMODE`/`CHARSET` appended only when present. -/
def build_connection_string (config : CfgMap) (envName : String) : Except PyErr String :=
  match alookup envName config with
  | none =>
      .error (.teradataConnectionError (envNotFoundMsg envName (config.map Prod.fst)))
  | some c =>
      if missingParams c = [] then
        let host := (alookup "host" c).getD ""
        let username := (alookup "username" c).getD ""
        let password := (alookup "password" c).getD ""
        let database := (alookup "database" c).getD ""
        let logmech := (alookup "logmech" c).getD "TD2"
        let s0 := "teradatasql://" ++ username ++ ":" ++ password ++ "@" ++ host ++
          "/" ++ database ++ "?LOGMECH=" ++ logmech
        let s1 := match alookup "tmode" c with
          | some t => s0 ++ "&TMODE=" ++ t
          | none => s0
        let s2 := match alookup "charset" c with
          | some cs => s1 ++ "&CHARSET=" ++ cs
          | none => s1
        .ok s2
      else
        .error (.teradataConnectionError (missingParamsMsg envName (missingParams c)))

/-- A SQLAlchemy engine as `create_engine` builds it: identity of the pooled
object plus the arguments the code passes (`pool_pre_ping=True`, `echo=False`). -/
structure Engine where
  engineId : Nat
  connString : String
  poolSize : Nat
  poolPrePing : Bool
  echo : Bool
deriving DecidableEq, Repr

/-- The mutable state of a `TeradataConnection`: the `_engines` cache in
insertion order, plus a fresh-identity counter for newly constructed engines. -/
structure ConnState where
  engines : List (String × Engine)
  nextId : Nat
deriving DecidableEq, Repr

/-- Oracles for the external driver: whether `create_engine` or the
`SELECT 1` probe succeeds for a given target string, whether `dispose`
succeeds for a given engine, and the exception texts on failure. -/
structure World where
  createOk : String → Nat → Bool
  createErrMsg : String → Nat → String
  probeOk : String → Bool
  probeErrMsg : String → String
  disposeOk : Nat → Bool
  disposeErrMsg : Nat → String

/-- Externally observable actions of the connection manager. -/
inductive Event where
  | poolCreated (connString : String) (poolSize : Nat) (engineId : Nat)
  | probeRun (connString : String)
  | engineDisposed (engineId : Nat)
deriving DecidableEq, Repr

/-- Number of pool constructions (`create_engine` calls) in an event trace. -/
def countPoolCreated (tr : List Event) : Nat :=
  tr.countP (fun ev => match ev with | .poolCreated _ _ _ => true | _ => false)

/-- `TeradataConnection.get_engine`: return the cached engine if present;
otherwise build the target string, construct the pool, run the liveness
probe, and only then write the cache entry. Every failure is wrapped in
`TeradataConnectionError` and leaves the state untouched. -/
def get_engine (w : World) (config : CfgMap) (st : ConnState)
    (envName : String) (poolSize : Nat) :
    Except PyErr Engine × ConnState × List Event :=
  match alookup envName st.engines with
  | some e => (.ok e, st, [])
  | none =>
    match build_connection_string config envName with
    | .error err =>
        (.error (.teradataConnectionError (failedConnectMsg envName err.msg)), st, [])
    | .ok cs =>
      if w.createOk cs poolSize then
        let eng : Engine := ⟨st.nextId, cs, poolSize, true, false⟩
        if w.probeOk cs then
          (.ok eng, ⟨st.engines ++ [(envName, eng)], st.nextId + 1⟩,
            [.poolCreated cs poolSize st.nextId, .probeRun cs])
        else
          (.error (.teradataConnectionError (failedConnectMsg envName (w.probeErrMsg cs))),
            st, [.poolCreated cs poolSize st.nextId, .probeRun cs])
      else
        (.error (.teradataConnectionError
            (failedConnectMsg envName (w.createErrMsg cs poolSize))), st, [])

/-- The `for env_name, engine in self._engines.items(): engine.dispose()`
loop of `close_all`: disposal events in order until the first failing
`dispose`, together with the identity of the failing engine, if any. -/
def disposeSeq (w : World) : List (String × Engine) → List Event × Option Nat
  | [] => ([], none)
  | (_, e) :: rest =>
    if w.disposeOk e.engineId then
      let r := disposeSeq w rest
      (.engineDisposed e.engineId :: r.1, r.2)
    else ([], some e.engineId)

/-- `TeradataConnection.close_all`: dispose every cached engine, then clear
the cache. There is no exception handling: a failing `dispose` propagates
the driver exception, aborting the loop before `self._engines.clear()`. -/
def close_all (w : World) (st : ConnState) :
    Except PyErr Unit × ConnState × List Event :=
  let r := disposeSeq w st.engines
  match r.2 with
  | none => (.ok (), ⟨[], st.nextId⟩, r.1)
  | some badId => (.error (.externalError (w.disposeErrMsg badId)), st, r.1)

/-! ### Reports (`src/reports.py`) -/

/-- A calendar date, as `datetime.date`. -/
structure PyDate where
  year : Nat
  month : Nat
  day : Nat
deriving DecidableEq, Repr

/-- Gregorian leap-year rule, as `datetime` implements it. -/
def isLeapYear (y : Nat) : Bool :=
  (y % 4 == 0 && y % 100 != 0) || y % 400 == 0

/-- Number of days in a month. -/
def daysInMonth (y m : Nat) : Nat :=
  if m = 2 then (if isLeapYear y then 29 else 28)
  else if m = 4 ∨ m = 6 ∨ m = 9 ∨ m = 11 then 30
  else 31

/-- `d - timedelta(days=1)`: the previous calendar day. -/
def prevDay : PyDate → PyDate
  | ⟨y, m, d⟩ =>
    if 1 < d then ⟨y, m, d - 1⟩
    else if 1 < m then ⟨y, m - 1, daysInMonth y (m - 1)⟩
    else ⟨y - 1, 12, 31⟩

/-- Left-pad a numeral with zeros to the given width. -/
def padZero (width n : Nat) : String :=
  let s := toString n
  if s.length < width then String.mk (List.replicate (width - s.length) '0') ++ s
  else s

/-- `date.isoformat()`: `YYYY-MM-DD`. -/
def isoformat (d : PyDate) : String :=
  padZero 4 d.year ++ "-" ++ padZero 2 d.month ++ "-" ++ padZero 2 d.day

/-- The `DateLike = Union[str, date]` arguments of the report operations. -/
inductive DateLike where
  | str (s : String)
  | date (d : PyDate)
deriving DecidableEq, Repr

/-- Python truthiness of a `DateLike`: only the empty string is falsy. -/
def DateLike.truthy : DateLike → Bool
  | .str s => !(s == "")
  | .date _ => true

/-- `x or dflt` on an optional `DateLike`: `None` and falsy values give the
default. -/
def orDefault (v : Option DateLike) (dflt : PyDate) : DateLike :=
  match v with
  | some x => if x.truthy then x else .date dflt
  | none => .date dflt

/-- Strings pass through; dates are rendered with `isoformat()`. -/
def DateLike.toValue : DateLike → String
  | .str s => s
  | .date d => isoformat d

/-- `PDCRInfoReport._normalize_dates`, with `date.today()` made explicit:
the start defaults to 1900-01-01 and the end to yesterday. -/
def normalize_dates (today : PyDate) (start_date end_date : Option DateLike) :
    String × String :=
  let start := orDefault start_date ⟨1900, 1, 1⟩
  let endv := orDefault end_date (prevDay today)
  (start.toValue, endv.toValue)

/-- The whitespace characters `str.strip()` removes (ASCII). -/
def isPySpace (c : Char) : Bool :=
  c == ' ' || c == '\t' || c == '\n' || c == '\r' || c == '\x0b' || c == '\x0c'

/-- `str.strip()` on the character list: drop a whitespace run at each end. -/
def listStrip (l : List Char) : List Char :=
  (((l.dropWhile isPySpace).reverse).dropWhile isPySpace).reverse

/-- `str.strip()`. -/
def pyStrip (s : String) : String := String.mk (listStrip s.data)

/-- `"%" in name or "_" in name`: the LIKE wildcard test. -/
def hasWildcard (s : String) : Bool :=
  s.data.any (fun c => c == '%' || c == '_')

/-- `PDCRInfoReport._database_filter`: a falsy pattern becomes `%`; others
are stripped; a stripped pattern without wildcards gets a leading `%`. -/
def database_filter (database_name : String) : String :=
  let name := if database_name = "" then "%" else pyStrip database_name
  if hasWildcard name then name else "%" ++ name

/-- The SQL text of `get_tablespace_history`, a fixed template with named
bind parameters. -/
def tablespaceQueryText : String :=
  "\n        SELECT\n            LogDate,\n            DatabaseName,\n            Tablename,\n            AccountName,\n            CURRENTPERM,\n            PEAKPERM,\n            CURRENTPERMSKEW,\n            PEAKPERMSKEW\n        FROM PDCRINFO.TableSpace_Hst\n        WHERE Logdate BETWEEN :start_date AND :end_date\n          AND TRIM(DatabaseName) LIKE :database_name\n        ORDER BY 1, 2, 3;\n        "

/-- The `(sql_text, params)` pair `get_tablespace_history` hands to
`pd.read_sql`: the SQL text is the fixed template and all user inputs go
into the bound-parameter dict. -/
def get_tablespace_history_request (today : PyDate)
    (start_date end_date : Option DateLike) (database_name : String) :
    String × List (String × String) :=
  let sv := normalize_dates today start_date end_date
  let db_filter := database_filter database_name
  (tablespaceQueryText,
    [("start_date", sv.1), ("end_date", sv.2), ("database_name", db_filter)])

/-! ### Shared lemmas -/

/-- `needle` occurs as a contiguous substring of `hay`. -/
def strContains (hay needle : String) : Prop := needle.data <:+: hay.data

instance (hay needle : String) : Decidable (strContains hay needle) :=
  inferInstanceAs (Decidable (needle.data <:+: hay.data))

theorem strContains_refl (s : String) : strContains s s := List.infix_rfl

theorem strContains_append_left (a x n : String) (h : strContains x n) :
    strContains (a ++ x) n := by
  obtain ⟨u, v, huv⟩ := h
  exact ⟨a.data ++ u, v, by rw [String.data_append, ← huv]; simp⟩

theorem strContains_append_right (x b n : String) (h : strContains x n) :
    strContains (x ++ b) n := by
  obtain ⟨u, v, huv⟩ := h
  exact ⟨u, v ++ b.data, by rw [String.data_append, ← huv]; simp⟩

theorem strContains_trans (a b c : String) (h1 : strContains a b)
    (h2 : strContains b c) : strContains a c := h2.trans h1

theorem strContains_commaJoin (l : List String) (n : String) (h : n ∈ l) :
    strContains (commaJoin l) n := by
  induction l with
  | nil => cases h
  | cons a rest ih =>
    cases rest with
    | nil =>
      have hna : n = a := by simpa using h
      subst hna
      exact strContains_refl n
    | cons b r2 =>
      rcases List.mem_cons.mp h with hna | hmem
      · subst hna
        exact strContains_append_right _ _ _
          (strContains_append_right _ _ _ (strContains_refl n))
      · exact strContains_append_left _ _ _ (ih hmem)

theorem strContains_pyReprList (names : List String) (n : String) (h : n ∈ names) :
    strContains (pyReprList names) n := by
  have h1 : strContains (pyQuote n) n :=
    strContains_append_right _ _ _ (strContains_append_left _ _ _ (strContains_refl n))
  have h2 : strContains (commaJoin (names.map pyQuote)) (pyQuote n) :=
    strContains_commaJoin _ _ (List.mem_map_of_mem _ h)
  have h3 : strContains (pyReprList names) (pyQuote n) :=
    strContains_append_right _ _ _ (strContains_append_left _ _ _ h2)
  exact strContains_trans _ _ _ h3 h1

theorem alookup_append_none {α : Type} (k : String) (l1 l2 : List (String × α))
    (h : alookup k l1 = none) : alookup k (l1 ++ l2) = alookup k l2 := by
  induction l1 with
  | nil => rfl
  | cons a t ih =>
    obtain ⟨k', v⟩ := a
    by_cases hk : k' = k
    · simp [alookup, hk] at h
    · simp only [List.cons_append, alookup, if_neg hk] at h ⊢
      exact ih h

theorem dropWhile_dropWhile (p : α → Bool) (l : List α) :
    (l.dropWhile p).dropWhile p = l.dropWhile p := by
  induction l with
  | nil => rfl
  | cons a t ih =>
    by_cases h : p a = true
    · simp [List.dropWhile, h, ih]
    · simp [List.dropWhile, h]

theorem dropWhile_head_false (p : α → Bool) (l : List α) (hd : α) (tl : List α)
    (h : l.dropWhile p = hd :: tl) : p hd = false := by
  induction l with
  | nil => simp [List.dropWhile] at h
  | cons a t ih =>
    simp only [List.dropWhile] at h
    split at h
    · exact ih h
    · rename_i hpa
      injection h with h1 h2
      subst h1
      simpa using hpa

theorem exists_append_dropWhile (p : α → Bool) (l : List α) :
    ∃ t, t ++ l.dropWhile p = l := by
  induction l with
  | nil => exact ⟨[], rfl⟩
  | cons a t ih =>
    by_cases ha : p a = true
    · obtain ⟨u, hu⟩ := ih
      exact ⟨a :: u, by simp [List.dropWhile, ha, hu]⟩
    · exact ⟨[], by simp [List.dropWhile, ha]⟩

theorem dropWhile_eq_self_of_head (p : α → Bool) (l : List α)
    (h : ∀ hd tl, l = hd :: tl → p hd = false) : l.dropWhile p = l := by
  cases l with
  | nil => rfl
  | cons a t => simp [List.dropWhile, h a t rfl]

theorem listStrip_idem (l : List Char) : listStrip (listStrip l) = listStrip l := by
  obtain ⟨u, hu⟩ := exists_append_dropWhile isPySpace (l.dropWhile isPySpace).reverse
  have hrev : ((l.dropWhile isPySpace).reverse.dropWhile isPySpace).reverse ++ u.reverse
      = l.dropWhile isPySpace := by
    have h2 := congrArg List.reverse hu
    simpa [List.reverse_append] using h2
  have h1 : (((l.dropWhile isPySpace).reverse.dropWhile isPySpace).reverse).dropWhile isPySpace
      = ((l.dropWhile isPySpace).reverse.dropWhile isPySpace).reverse := by
    apply dropWhile_eq_self_of_head
    intro hd tl hcons
    apply dropWhile_head_false isPySpace l hd (tl ++ u.reverse)
    rw [← hrev, hcons]
    rfl
  unfold listStrip
  rw [h1, List.reverse_reverse, dropWhile_dropWhile]

theorem pyStrip_idem (s : String) : pyStrip (pyStrip s) = pyStrip s := by
  unfold pyStrip
  rw [show (String.mk (listStrip s.data)).data = listStrip s.data from rfl, listStrip_idem]

theorem disposeSeq_all_ok (w : World) (l : List (String × Engine))
    (h : ∀ q ∈ l, w.disposeOk q.2.engineId = true) :
    disposeSeq w l = (l.map (fun q => .engineDisposed q.2.engineId), none) := by
  induction l with
  | nil => rfl
  | cons a t ih =>
    obtain ⟨nm, e⟩ := a
    have ha := h (nm, e) (List.mem_cons_self _ _)
    simp only [disposeSeq, ha, if_pos]
    rw [ih (fun q hq => h q (List.mem_cons_of_mem _ hq))]
    rfl

theorem disposeSeq_fail (w : World) (pre post : List (String × Engine))
    (nm : String) (e : Engine)
    (hpre : ∀ q ∈ pre, w.disposeOk q.2.engineId = true)
    (hfail : w.disposeOk e.engineId = false) :
    disposeSeq w (pre ++ (nm, e) :: post) =
      (pre.map (fun q => .engineDisposed q.2.engineId), some e.engineId) := by
  induction pre with
  | nil => simp [disposeSeq, hfail]
  | cons a t ih =>
    obtain ⟨nm2, e2⟩ := a
    have ha := hpre (nm2, e2) (List.mem_cons_self _ _)
    simp only [List.cons_append, disposeSeq, ha, if_pos, List.append_eq]
    rw [ih (fun q hq => hpre q (List.mem_cons_of_mem _ hq))]
    rfl

/-! ### Concrete instances used by witnesses and counterexamples -/

/-- The spec's minimal configuration entry (required fields only). -/
def entry1 : CfgEntry := [("host", "h"), ("username", "u"), ("password", "p"), ("database", "d")]

/-- The spec's entry extended with `tmode` and `charset`. -/
def entry2 : CfgEntry := entry1 ++ [("tmode", "ANSI"), ("charset", "UTF8")]

/-- A one-environment configuration. -/
def cfg1 : CfgMap := [("test", entry1)]

/-- A two-environment configuration. -/
def cfg2 : CfgMap := [("test", entry1), ("prod", entry1)]

/-- A driver where every external operation succeeds. -/
def wAll : World :=
  ⟨fun _ _ => true, fun _ _ => "", fun _ => true, fun _ => "", fun _ => true, fun _ => ""⟩

/-! ### Claim theorems -/

/-- C4: for a configuration entry with the required fields `host`, `username`,
`password`, `database`, the built connection target string is exactly
`teradatasql://<username>:<password>@<host>/<database>?LOGMECH=<logmech>` with
`logmech` defaulting to `TD2`, then `&TMODE=` only when `tmode` is present,
then `&CHARSET=` only when `charset` is present, in that order; with no
optional fields the string contains `LOGMECH=TD2` and omits `TMODE` and
`CHARSET`, and with `tmode=ANSI`, `charset=UTF8` it ends with
`&TMODE=ANSI&CHARSET=UTF8`. -/
theorem build_connection_string_format
    (config : CfgMap) (envName : String) (c : CfgEntry) (h u p d : String)
    (hc : alookup envName config = some c)
    (hh : alookup "host" c = some h) (hu : alookup "username" c = some u)
    (hp : alookup "password" c = some p) (hd : alookup "database" c = some d) :
    build_connection_string config envName =
      .ok ("teradatasql://" ++ u ++ ":" ++ p ++ "@" ++ h ++ "/" ++ d ++ "?LOGMECH=" ++
        (alookup "logmech" c).getD "TD2" ++
        (match alookup "tmode" c with | some t => "&TMODE=" ++ t | none => "") ++
        (match alookup "charset" c with | some cs => "&CHARSET=" ++ cs | none => ""))
    ∧ build_connection_string [("e", entry1)] "e" = .ok "teradatasql://u:p@h/d?LOGMECH=TD2"
    ∧ ¬ strContains "teradatasql://u:p@h/d?LOGMECH=TD2" "TMODE"
    ∧ ¬ strContains "teradatasql://u:p@h/d?LOGMECH=TD2" "CHARSET"
    ∧ build_connection_string [("e", entry2)] "e" =
        .ok ("teradatasql://u:p@h/d?LOGMECH=TD2" ++ "&TMODE=ANSI" ++ "&CHARSET=UTF8") := by
  refine ⟨?_, by rfl, by decide, by decide, by rfl⟩
  unfold build_connection_string
  simp only [hc]
  have hm : missingParams c = [] := by
    simp [missingParams, requiredParams, hh, hu, hp, hd]
  rw [if_pos hm]
  rcases ht : alookup "tmode" c with _ | t <;>
    rcases hcs : alookup "charset" c with _ | cs <;>
      simp [hh, hu, hp, hd, ht, hcs, String.append_assoc]

/-- C4 witness: the hypotheses hold for the concrete minimal entry, where the
built string is `teradatasql://u:p@h/d?LOGMECH=TD2`. -/
theorem build_connection_string_format_witness :
    build_connection_string [("e", entry1)] "e" = .ok "teradatasql://u:p@h/d?LOGMECH=TD2" :=
  (build_connection_string_format [("e", entry1)] "e" entry1 "h" "u" "p" "d"
    (by decide) (by decide) (by decide) (by decide) (by decide)).2.1

/-- C5 counterexample: an entry lacking `username`, `password` and `database`
is accepted by `_load_config` without any error — required-field validation
does not happen at load time. -/
theorem load_config_accepts_entry_missing_fields :
    load_config "td_env.yaml" (.parsedMapping [("test", [("host", "h")])]) =
      .ok [("test", [("host", "h")])] := rfl

/-- C5 amended: loading fails with `TeradataConnectionError` when the source
file is absent, when it cannot be parsed, or when it parses to a non-mapping;
a mapping is accepted as-is, and an entry lacking a required field is only
rejected later, when `_build_connection_string` runs for that environment. -/
theorem load_config_failure_modes
    (path emsg : String) (entries : CfgMap) (config : CfgMap)
    (envName : String) (c : CfgEntry) :
    load_config path .missingFile = .error (.teradataConnectionError (configNotFoundMsg path))
    ∧ load_config path (.yamlError emsg) =
        .error (.teradataConnectionError (yamlParseMsg emsg))
    ∧ load_config path .parsedNonMapping =
        .error (.teradataConnectionError (loadWrapMsg (invalidFormatMsg path)))
    ∧ load_config path (.parsedMapping entries) = .ok entries
    ∧ (alookup envName config = some c → missingParams c ≠ [] →
        build_connection_string config envName =
          .error (.teradataConnectionError (missingParamsMsg envName (missingParams c)))) := by
  refine ⟨rfl, rfl, rfl, rfl, ?_⟩
  intro hsome hmiss
  unfold build_connection_string
  simp only [hsome]
  rw [if_neg hmiss]

/-- C5 witness: an entry with only `host` satisfies the missing-field
hypothesis and is rejected by `_build_connection_string`. -/
theorem load_config_failure_modes_witness :
    build_connection_string [("e", [("host", "h")])] "e" =
      .error (.teradataConnectionError (missingParamsMsg "e" (missingParams [("host", "h")]))) :=
  (load_config_failure_modes "p" "m" [] [("e", [("host", "h")])] "e"
    [("host", "h")]).2.2.2.2 (by decide) (by decide)

/-- C8 counterexample: the filter value ` %Sales ` already contains `%`, yet
it is not passed through unchanged — `_database_filter` strips the
surrounding whitespace first and returns `%Sales`. -/
theorem database_filter_wildcard_not_unchanged :
    database_filter " %Sales " = "%Sales" ∧ database_filter " %Sales " ≠ " %Sales " := by
  exact ⟨by decide, by decide⟩

/-- C8 amended: `_database_filter` first strips leading and trailing
whitespace; a stripped value containing `%` or `_` is returned in its
stripped form, and a stripped value with no wildcard gets a single leading
`%`; the result is placed in the bound-parameter dict of the report request
while the SQL text stays the fixed template, independent of the filter. -/
theorem database_filter_strip_then_wildcard (s : String) (hs : s ≠ "") :
    (hasWildcard (pyStrip s) = true → database_filter s = pyStrip s)
    ∧ (hasWildcard (pyStrip s) = false → database_filter s = "%" ++ pyStrip s)
    ∧ (∀ today sd ed,
        (get_tablespace_history_request today sd ed s).1 = tablespaceQueryText
        ∧ ("database_name", database_filter s) ∈
            (get_tablespace_history_request today sd ed s).2) := by
  refine ⟨?_, ?_, ?_⟩
  · intro hw
    simp [database_filter, if_neg hs, hw]
  · intro hw
    simp [database_filter, if_neg hs, hw]
  · intro today sd ed
    exact ⟨rfl, by simp [get_tablespace_history_request]⟩

/-- C8 witness: `Sales` has no wildcard and becomes `%Sales`. -/
theorem database_filter_strip_then_wildcard_witness :
    database_filter "Sales" = "%" ++ pyStrip "Sales" :=
  (database_filter_strip_then_wildcard "Sales" (by decide)).2.1 (by decide)

/-- C9 counterexample: the caller-supplied string `""` is not passed through
as given — Python `or` treats it as falsy, so the bound start value becomes
the 1900-01-01 default instead of the empty string. -/
theorem normalize_dates_empty_string_uses_default :
    (normalize_dates ⟨2024, 5, 6⟩ (some (.str "")) none).1 = "1900-01-01"
    ∧ (normalize_dates ⟨2024, 5, 6⟩ (some (.str "")) none).1 ≠ "" := by
  exact ⟨by decide, by decide⟩

/-- C9 amended: an omitted (`None`) or empty-string start date binds the
epoch `1900-01-01`; an omitted or empty-string end date binds yesterday
(today minus one day) in ISO form; a non-empty caller-supplied string is
passed through as given and a date value is converted to its ISO string;
the report request binds exactly these values. -/
theorem normalize_dates_defaults (today : PyDate) (sd ed : Option DateLike)
    (s : String) (d : PyDate) (dbn : String) :
    (normalize_dates today none ed).1 = "1900-01-01"
    ∧ (normalize_dates today (some (.str "")) ed).1 = "1900-01-01"
    ∧ (normalize_dates today sd none).2 = isoformat (prevDay today)
    ∧ (normalize_dates today sd (some (.str ""))).2 = isoformat (prevDay today)
    ∧ (s ≠ "" → (normalize_dates today (some (.str s)) ed).1 = s
        ∧ (normalize_dates today sd (some (.str s))).2 = s)
    ∧ (normalize_dates today (some (.date d)) ed).1 = isoformat d
    ∧ (normalize_dates today sd (some (.date d))).2 = isoformat d
    ∧ (get_tablespace_history_request today none none dbn).2 =
        [("start_date", "1900-01-01"), ("end_date", isoformat (prevDay today)),
          ("database_name", database_filter dbn)] := by
  refine ⟨rfl, rfl, ?_, ?_, ?_, rfl, ?_, ?_⟩
  · cases sd with
    | none => rfl
    | some x => cases x with
      | str s2 =>
        by_cases h2 : s2 = ""
        · subst h2; rfl
        · simp [normalize_dates, orDefault, DateLike.truthy, h2, DateLike.toValue]
      | date d2 => rfl
  · cases sd with
    | none => rfl
    | some x => cases x with
      | str s2 =>
        by_cases h2 : s2 = ""
        · subst h2; rfl
        · simp [normalize_dates, orDefault, DateLike.truthy, h2, DateLike.toValue]
      | date d2 => rfl
  · intro hs
    constructor
    · simp [normalize_dates, orDefault, DateLike.truthy, hs, DateLike.toValue]
    · cases sd with
      | none => simp [normalize_dates, orDefault, DateLike.truthy, hs, DateLike.toValue]
      | some x => cases x with
        | str s2 =>
          by_cases h2 : s2 = "" <;>
            simp [normalize_dates, orDefault, DateLike.truthy, hs, h2, DateLike.toValue]
        | date d2 => simp [normalize_dates, orDefault, DateLike.truthy, hs, DateLike.toValue]
  · cases sd with
    | none => rfl
    | some x => cases x with
      | str s2 =>
        by_cases h2 : s2 = ""
        · subst h2; rfl
        · simp [normalize_dates, orDefault, DateLike.truthy, h2, DateLike.toValue]
      | date d2 => rfl
  · rfl

/-- C9 witness: a concrete non-empty start string is passed through. -/
theorem normalize_dates_defaults_witness :
    (normalize_dates ⟨2024, 5, 6⟩ (some (.str "2024-01-01")) none).1 = "2024-01-01" :=
  ((normalize_dates_defaults ⟨2024, 5, 6⟩ (some (.str "2024-01-01")) none
    "2024-01-01" ⟨2024, 1, 1⟩ "%").2.2.2.2.1 (by decide)).1

/-- C10: `_database_filter` strips leading and trailing whitespace before
testing for wildcards — filtering a value and filtering its stripped form
agree, `"  Sales  "` becomes `"%Sales"` — and the empty (falsy) pattern is
replaced by the match-all pattern `%`. -/
theorem database_filter_strips_and_defaults :
    (∀ s : String, database_filter s = database_filter (pyStrip s))
    ∧ database_filter "  Sales  " = "%Sales"
    ∧ database_filter "" = "%" := by
  refine ⟨?_, by decide, by decide⟩
  intro s
  by_cases hs : s = ""
  · subst hs; decide
  · by_cases hps : pyStrip s = ""
    · simp only [database_filter, if_neg hs, hps]
      decide
    · simp only [database_filter, if_neg hs, if_neg hps]
      rw [pyStrip_idem]

/-- C1: starting from a state with no cached engine for `envName`, a
successful `get_engine` constructs exactly one pool, and the second call with
the same name returns the identical engine immediately — no new events at
all, so no re-validation and no new pool — leaving the state unchanged. -/
theorem get_engine_cached_second_call
    (w : World) (config : CfgMap) (st : ConnState) (envName : String) (ps : Nat)
    (e : Engine) (st1 : ConnState) (tr1 : List Event)
    (h0 : alookup envName st.engines = none)
    (h1 : get_engine w config st envName ps = (.ok e, st1, tr1)) :
    get_engine w config st1 envName ps = (.ok e, st1, []) ∧ countPoolCreated tr1 = 1 := by
  unfold get_engine at h1
  simp only [h0] at h1
  cases hb : build_connection_string config envName with
  | error err => simp only [hb] at h1; simp at h1
  | ok cs =>
    simp only [hb] at h1
    by_cases hc : w.createOk cs ps = true
    · rw [if_pos hc] at h1
      by_cases hp : w.probeOk cs = true
      · rw [if_pos hp] at h1
        simp only [Prod.mk.injEq, Except.ok.injEq] at h1
        obtain ⟨he, hst, htr⟩ := h1
        subst he hst htr
        constructor
        · have hl : alookup envName (st.engines ++ [(envName, (⟨st.nextId, cs, ps, true, false⟩ : Engine))])
              = some ⟨st.nextId, cs, ps, true, false⟩ := by
            rw [alookup_append_none _ _ _ h0]
            simp [alookup]
          unfold get_engine
          simp only [hl]
        · rfl
      · rw [if_neg hp] at h1; simp at h1
    · rw [if_neg hc] at h1; simp at h1

/-- C1 witness: with an all-succeeding driver and the one-environment
configuration, the first call caches engine 0 and the second call returns it
with an empty event trace. -/
theorem get_engine_cached_second_call_witness :
    get_engine wAll cfg1
        ⟨[("test", ⟨0, "teradatasql://u:p@h/d?LOGMECH=TD2", 5, true, false⟩)], 1⟩ "test" 5 =
      (.ok ⟨0, "teradatasql://u:p@h/d?LOGMECH=TD2", 5, true, false⟩,
        ⟨[("test", ⟨0, "teradatasql://u:p@h/d?LOGMECH=TD2", 5, true, false⟩)], 1⟩, [])
    ∧ countPoolCreated [.poolCreated "teradatasql://u:p@h/d?LOGMECH=TD2" 5 0,
        .probeRun "teradatasql://u:p@h/d?LOGMECH=TD2"] = 1 :=
  get_engine_cached_second_call wAll cfg1 ⟨[], 0⟩ "test" 5
    ⟨0, "teradatasql://u:p@h/d?LOGMECH=TD2", 5, true, false⟩
    ⟨[("test", ⟨0, "teradatasql://u:p@h/d?LOGMECH=TD2", 5, true, false⟩)], 1⟩
    [.poolCreated "teradatasql://u:p@h/d?LOGMECH=TD2" 5 0,
      .probeRun "teradatasql://u:p@h/d?LOGMECH=TD2"]
    rfl rfl

/-- C2: whenever `get_engine` fails — unknown name, missing field, pool
construction or liveness-probe failure — the returned state equals the input
state (the cache entry is written only after a successful probe), so a later
call starts from scratch and behaves exactly like the first. -/
theorem get_engine_failure_leaves_cache_unchanged
    (w : World) (config : CfgMap) (st : ConnState) (envName : String) (ps : Nat)
    (err : PyErr) (st' : ConnState) (tr : List Event)
    (h : get_engine w config st envName ps = (.error err, st', tr)) :
    st' = st ∧ get_engine w config st' envName ps = get_engine w config st envName ps := by
  have hst : st' = st := by
    unfold get_engine at h
    cases hl : alookup envName st.engines with
    | some e => simp only [hl] at h; simp at h
    | none =>
      simp only [hl] at h
      cases hb : build_connection_string config envName with
      | error e2 =>
        simp only [hb, Prod.mk.injEq] at h
        exact h.2.1.symm
      | ok cs =>
        simp only [hb] at h
        by_cases hc : w.createOk cs ps = true
        · rw [if_pos hc] at h
          by_cases hp : w.probeOk cs = true
          · rw [if_pos hp] at h; simp at h
          · rw [if_neg hp] at h
            simp only [Prod.mk.injEq] at h
            exact h.2.1.symm
        · rw [if_neg hc] at h
          simp only [Prod.mk.injEq] at h
          exact h.2.1.symm
  exact ⟨hst, by rw [hst]⟩

/-- C2 witness: a failing acquire (unknown name in an empty configuration)
leaves the empty state untouched. -/
theorem get_engine_failure_leaves_cache_unchanged_witness :
    ((⟨[], 0⟩ : ConnState) = ⟨[], 0⟩)
    ∧ get_engine wAll [] ⟨[], 0⟩ "nope" 5 = get_engine wAll [] ⟨[], 0⟩ "nope" 5 :=
  get_engine_failure_leaves_cache_unchanged wAll [] ⟨[], 0⟩ "nope" 5
    (.teradataConnectionError (failedConnectMsg "nope" (envNotFoundMsg "nope" [])))
    ⟨[], 0⟩ [] rfl

/-- C3: acquiring an environment name absent from the configuration fails
with a `TeradataConnectionError` whose message contains every configured
environment name, the state is unchanged, and no event happens — in
particular no pool is constructed, since `create_engine` is never reached. -/
theorem get_engine_unknown_env_lists_names
    (w : World) (config : CfgMap) (st : ConnState) (envName : String) (ps : Nat)
    (hc : alookup envName st.engines = none)
    (hu : alookup envName config = none) :
    get_engine w config st envName ps =
      (.error (.teradataConnectionError
        (failedConnectMsg envName (envNotFoundMsg envName (config.map Prod.fst)))), st, [])
    ∧ ∀ n ∈ config.map Prod.fst,
        strContains (failedConnectMsg envName (envNotFoundMsg envName (config.map Prod.fst))) n := by
  constructor
  · unfold get_engine
    simp only [hc]
    unfold build_connection_string
    simp only [hu]
    rfl
  · intro n hn
    have hrl := strContains_pyReprList (config.map Prod.fst) n hn
    have h1 : strContains (envNotFoundMsg envName (config.map Prod.fst)) n := by
      unfold envNotFoundMsg
      exact strContains_append_left _ _ _ hrl
    unfold failedConnectMsg
    exact strContains_append_left _ _ _ h1

/-- C3 witness: acquiring `nope` against the two-environment configuration
fails without events, and the message contains the valid name `test`. -/
theorem get_engine_unknown_env_lists_names_witness :
    get_engine wAll cfg2 ⟨[], 0⟩ "nope" 5 =
      (.error (.teradataConnectionError
        (failedConnectMsg "nope" (envNotFoundMsg "nope" (cfg2.map Prod.fst)))), ⟨[], 0⟩, [])
    ∧ strContains (failedConnectMsg "nope" (envNotFoundMsg "nope" (cfg2.map Prod.fst))) "test" :=
  ⟨(get_engine_unknown_env_lists_names wAll cfg2 ⟨[], 0⟩ "nope" 5 rfl (by decide)).1,
    (get_engine_unknown_env_lists_names wAll cfg2 ⟨[], 0⟩ "nope" 5 rfl (by decide)).2
      "test" (by decide)⟩

/-- A driver whose `dispose` raises for engine 0 and succeeds otherwise. -/
def wBoom : World :=
  ⟨fun _ _ => true, fun _ _ => "", fun _ => true, fun _ => "", fun n => n != 0, fun _ => "boom"⟩

/-- A cache holding two engines, ids 0 and 1. -/
def stAB : ConnState :=
  ⟨[("a", ⟨0, "csA", 5, true, false⟩), ("b", ⟨1, "csB", 5, true, false⟩)], 2⟩

/-- C6 counterexample: when disposing the first cached pool throws,
`close_all` as a whole fails — the exception propagates, the second pool is
never disposed (the event trace is empty) and the cache is not cleared. -/
theorem close_all_dispose_failure_cex :
    close_all wBoom stAB = (.error (.externalError "boom"), stAB, [])
    ∧ stAB.engines ≠ [] := by
  exact ⟨rfl, by decide⟩

/-- C6 amended: if disposing one cached pool throws during `close_all`, the
driver exception propagates and the loop aborts early: the pools cached
before the failing one are disposed, the failing pool and every later pool
are not, and the cache is left unchanged (not cleared). -/
theorem close_all_aborts_on_dispose_failure
    (w : World) (st : ConnState) (pre post : List (String × Engine))
    (nm : String) (e : Engine)
    (hsplit : st.engines = pre ++ (nm, e) :: post)
    (hpre : ∀ q ∈ pre, w.disposeOk q.2.engineId = true)
    (hfail : w.disposeOk e.engineId = false) :
    close_all w st =
      (.error (.externalError (w.disposeErrMsg e.engineId)), st,
        pre.map (fun q => .engineDisposed q.2.engineId)) := by
  unfold close_all
  rw [hsplit, disposeSeq_fail w pre post nm e hpre hfail]

/-- C6 amended witness: with two cached engines where the second one's
`dispose` throws, the first is disposed, the exception propagates and the
cache stays intact. -/
theorem close_all_aborts_on_dispose_failure_witness :
    close_all ⟨fun _ _ => true, fun _ _ => "", fun _ => true, fun _ => "",
        fun n => n != 1, fun _ => "down"⟩ stAB =
      (.error (.externalError "down"), stAB, [.engineDisposed 0]) :=
  close_all_aborts_on_dispose_failure _ stAB [("a", ⟨0, "csA", 5, true, false⟩)]
    [] "b" ⟨1, "csB", 5, true, false⟩ rfl (by decide) rfl

/-- C7: when every disposal succeeds, `close_all` emits exactly one disposal
event per cached pool, in cache order, and clears the cache; calling it on
the resulting (or any) empty cache succeeds with no events at all. -/
theorem close_all_disposes_each_once_and_clears
    (w : World) (st : ConnState)
    (h : ∀ q ∈ st.engines, w.disposeOk q.2.engineId = true) :
    close_all w st =
      (.ok (), ⟨[], st.nextId⟩, st.engines.map (fun q => .engineDisposed q.2.engineId))
    ∧ ∀ n : Nat, close_all w ⟨[], n⟩ = (.ok (), ⟨[], n⟩, []) := by
  constructor
  · unfold close_all
    rw [disposeSeq_all_ok w st.engines h]
  · intro n
    rfl

/-- C7 witness: a two-engine cache is fully disposed and cleared, and the
second call is a no-op. -/
theorem close_all_disposes_each_once_and_clears_witness :
    close_all wAll stAB = (.ok (), ⟨[], 2⟩, [.engineDisposed 0, .engineDisposed 1])
    ∧ close_all wAll ⟨[], 2⟩ = (.ok (), ⟨[], 2⟩, []) :=
  ⟨(close_all_disposes_each_once_and_clears wAll stAB (by decide)).1,
    (close_all_disposes_each_once_and_clears wAll stAB (by decide)).2 2⟩

end TD
